import Mathlib

/-!
Verification development for the registry event listener
(`registry/listener.go`) of forta-core-go.

The Go source is shallowly embedded: pure algorithmic parts (block-range
pagination) become Lean functions on `Int` (Go `int64` arithmetic here never
approaches the 64-bit bounds involved in the claims, and the source works on
`big.Int` values converted from `int64`); stateful, effectful handling code
becomes explicit state passing producing a trace of observable effects
(refreshes, filter recomputations, message emissions, role routing, state
queries); fallible Go code (returning `error`, or panicking) returns
`Except Err`.

External collaborators (ABI decoders, the chain RPC client, the registry
state client, the message sink) are parameters of the model, following the
spec's scoping ("Excluded, treated as external collaborators").
-/

namespace Forta

/-- Error values: Go `error` results (and panics) are modelled as this type. -/
structure Err where
  msg : String
deriving DecidableEq, Repr

/-! ## Range pagination (`ProcessBlockRange`, `ProcessLastBlocks`)

The page-producing goroutine of `ProcessBlockRange` runs:

    start := startBlock
    end := math.BigMin(start+pageSize, endBlock)     -- pageSize = 10000
    for end.Cmp(endBlock) <= 0 {
      pages <- page{Start: start.Int64(), End: end.Int64()}
      if end.Cmp(endBlock) == 0 { return nil }
      start = end + 1
      end = math.BigMin(start+pageSize, endBlock)
    }

Since `end = min (start + pageSize) endBlock ≤ endBlock` always holds, the
loop guard is always satisfied and the loop exits only through the
`end == endBlock` return; `producePages` below is that loop as a recursive
function.  Workers only consume pages; they do not affect which pages are
produced. -/

/-- The constant `pageSize := big.NewInt(10000)` of `ProcessBlockRange`. -/
def pageSize : Int := 10000

/-- The source's page type: Start and End block numbers, both int64. -/
structure Page where
  Start : Int
  End : Int
deriving DecidableEq, Repr

/-- The sequence of pages sent on the `pages` channel by the producer
goroutine of `ProcessBlockRange`, in production order. -/
def producePages (start endBlock : Int) : List Page :=
  if min (start + pageSize) endBlock = endBlock then
    [⟨start, min (start + pageSize) endBlock⟩]
  else
    ⟨start, min (start + pageSize) endBlock⟩ ::
      producePages (min (start + pageSize) endBlock + 1) endBlock
termination_by (endBlock - start).toNat
decreasing_by
  simp only [pageSize] at *
  omega

/-- The pages processed by `ProcessBlockRange(startBlock, endBlock)` when
`endBlock` is given explicitly (a `nil` end block resolves to the chain
height before pagination starts and is handled by the caller model). -/
def ProcessBlockRangePages (startBlock endBlock : Int) : List Page :=
  producePages startBlock endBlock

/-- The function `ProcessLastBlocks(blocksAgo)`: fetches the current block
number `bn`, errors if it is 0, and otherwise calls
`ProcessBlockRange(bn, bn - blocksAgo)`.  The result is the page list that
call processes. -/
def ProcessLastBlocks (chainHeight blocksAgo : Int) : Except Err (List Page) :=
  if chainHeight = 0 then
    .error ⟨"current block is unexpectedly 0"⟩
  else
    .ok (ProcessBlockRangePages chainHeight (chainHeight - blocksAgo))

/-- Whether page `p` covers block number `b` (inclusive interval). -/
def pageCovers (p : Page) (b : Int) : Bool :=
  decide (p.Start ≤ b) && decide (b ≤ p.End)

lemma producePages_head (s e : Int) :
    (producePages s e).head? = some ⟨s, min (s + pageSize) e⟩ := by
  rw [producePages]
  split <;> simp

lemma producePages_spec (s e : Int) :
    s ≤ e →
    (∀ p ∈ producePages s e,
        s ≤ p.Start ∧ p.Start ≤ p.End ∧ p.End ≤ e ∧ p.End - p.Start ≤ pageSize) ∧
    List.Chain' (fun p q => q.Start = p.End + 1) (producePages s e) ∧
    (∀ b : Int, (producePages s e).countP (fun p => pageCovers p b) =
        if s ≤ b ∧ b ≤ e then 1 else 0) := by
  induction s, e using producePages.induct with
  | case1 s e h =>
    intro hse
    rw [producePages, if_pos h]
    simp only [pageSize] at h ⊢
    refine ⟨?_, ?_, ?_⟩
    · intro p hp
      simp only [List.mem_singleton] at hp
      subst hp
      simp only
      omega
    · simp
    · intro b
      simp only [List.countP_singleton, pageCovers, Bool.and_eq_true, decide_eq_true_eq]
      split_ifs <;> omega
  | case2 s e h ih =>
    intro hse
    rw [producePages, if_neg h]
    simp only [pageSize] at h ⊢
    have hmin : min (s + 10000) e = s + 10000 := by omega
    simp only [hmin]
    have hrec := ih (by simp only [pageSize]; omega)
    simp only [pageSize] at hrec
    simp only [hmin] at hrec
    obtain ⟨ihb, ihc, ihcnt⟩ := hrec
    refine ⟨?_, ?_, ?_⟩
    · intro p hp
      simp only [hmin, List.mem_cons] at hp
      rcases hp with hp | hp
      · subst hp
        simp only
        omega
      · have := ihb p hp
        omega
    · refine List.chain'_cons'.mpr ⟨?_, ihc⟩
      intro q hq
      rw [producePages_head] at hq
      simp only [Option.mem_def, Option.some.injEq] at hq
      subst hq
      simp only [hmin]
    · intro b
      rw [List.countP_cons, ihcnt b]
      simp only [hmin, pageCovers, Bool.and_eq_true, decide_eq_true_eq]
      split_ifs <;> omega

/-- C1: for every valid `(start, end)` with `end ≥ start`, `ProcessBlockRange`
partitions the inclusive interval `[start, end]` into contiguous,
non-overlapping pages, each within the interval and at most 10,000 blocks
wide (`End - Start ≤ 10000`), with every block of the interval covered by
exactly one produced page. -/
theorem processBlockRange_partitions_range (s e : Int) (hse : s ≤ e) :
    (∀ p ∈ ProcessBlockRangePages s e,
        s ≤ p.Start ∧ p.Start ≤ p.End ∧ p.End ≤ e ∧ p.End - p.Start ≤ pageSize) ∧
    List.Chain' (fun p q => q.Start = p.End + 1) (ProcessBlockRangePages s e) ∧
    (∀ b : Int, s ≤ b → b ≤ e →
        (ProcessBlockRangePages s e).countP (fun p => pageCovers p b) = 1) := by
  obtain ⟨hb, hc, hcnt⟩ := producePages_spec s e hse
  refine ⟨hb, hc, ?_⟩
  intro b hb1 hb2
  rw [ProcessBlockRangePages, hcnt b, if_pos ⟨hb1, hb2⟩]

theorem processBlockRange_partitions_range_witness :
    (0 : Int) ≤ 25000 ∧
    ((∀ p ∈ ProcessBlockRangePages 0 25000,
        0 ≤ p.Start ∧ p.Start ≤ p.End ∧ p.End ≤ 25000 ∧ p.End - p.Start ≤ pageSize) ∧
     List.Chain' (fun p q => q.Start = p.End + 1) (ProcessBlockRangePages 0 25000) ∧
     (∀ b : Int, 0 ≤ b → b ≤ 25000 →
        (ProcessBlockRangePages 0 25000).countP (fun p => pageCovers p b) = 1)) :=
  ⟨by norm_num, processBlockRange_partitions_range 0 25000 (by norm_num)⟩

/-- C10: `ProcessLastBlocks(blocksAgo)` with current height `H > 0` and
`blocksAgo > 0` calls `ProcessBlockRange(H, H - blocksAgo)` (start above
end), which produces exactly one page `⟨H, H - blocksAgo⟩`; with current
height 0 it returns an error without processing any page. -/
theorem processLastBlocks_single_page :
    (∀ chainHeight blocksAgo : Int, 0 < chainHeight → 0 < blocksAgo →
        ProcessLastBlocks chainHeight blocksAgo =
          .ok [⟨chainHeight, chainHeight - blocksAgo⟩]) ∧
    (∀ blocksAgo : Int,
        ProcessLastBlocks 0 blocksAgo = .error ⟨"current block is unexpectedly 0"⟩) := by
  constructor
  · intro H b hH hb
    rw [ProcessLastBlocks, if_neg (by omega)]
    rw [ProcessBlockRangePages, producePages]
    have hmin : min (H + pageSize) (H - b) = H - b := by
      simp only [pageSize]; omega
    rw [if_pos hmin, hmin]
  · intro b
    rw [ProcessLastBlocks, if_pos rfl]

theorem processLastBlocks_single_page_witness :
    (0 : Int) < 5 ∧ (0 : Int) < 2 ∧
    ProcessLastBlocks 5 2 = .ok [⟨5, 5 - 2⟩] :=
  ⟨by norm_num, by norm_num,
    processLastBlocks_single_page.1 5 2 (by norm_num) (by norm_num)⟩

/-! ## Logs, topics, addresses

Addresses are modelled as `Nat` (Go `common.Address` values; `.Hex()` and
the registry-package helper `equalsAddress`, which compares a log address
with a role address, collapse to equality on the model).  Topics are the
`String` values `getTopic` extracts (Go compares them against generated
per-contract topic-hash constants). -/

/-- Eth log as used by `handleLog`: its address and its topic list. -/
structure EthLog where
  address : Nat
  topics : List String
deriving DecidableEq, Repr

/-- Modelled from the spec: the registry package helper `getTopic` (not under
`src/`) returns the log's first topic ("first topic = event signature
hash"). -/
def getTopic (le : EthLog) : String :=
  le.topics.headD ""

/-- Modelled from the spec: the registry package helper `equalsAddress` (not
under `src/`) performs the "exact address match" of a log address against a
role address. -/
def equalsAddress (a b : Nat) : Bool :=
  a == b

/-- The guard `contracts.Addresses.X != nil && equalsAddress(le.Address,
contracts.Addresses.X.Hex())` used for the two optional roles. -/
def optAddrMatches (o : Option Nat) (x : Nat) : Bool :=
  match o with
  | some a => equalsAddress x a
  | none => false

/-- Modelled from the spec: `utils.ZeroAddress` (not under `src/`), the
all-zero address whose appearance as `from` denotes a mint. -/
def ZeroAddress : Nat := 0

/-- The shared proxy-upgrade topic, value from
`src/contracts/contract_stake_subject_gateway/topics.go` (`UpgradedTopic`);
all contract roles share this `Upgraded(address)` event shape. -/
def UpgradedTopic : String :=
  "0xbc7cd75a20ee27fd9adebab32041f755214dbc6bffa90cc0225b39da2e5c2d3b"

/-! Modelled from the spec: the remaining topic constants come from generated
contract packages that are not under `src/`; they are distinct keccak topic
hashes, modelled as distinct placeholder strings (the listener only compares
them for equality). -/

/-- Modelled topic constant of `contract_scanner_registry_0_1_4`. -/
def ScannerUpdatedTopic : String := "topic:ScannerRegistry.ScannerUpdated"

/-- Modelled topic constant of `contract_scanner_registry_0_1_4`. -/
def ScannerEnabledTopic : String := "topic:ScannerRegistry.ScannerEnabled"

/-- Modelled topic constant of `contract_scanner_registry_0_1_4`. -/
def StakeThresholdChangedTopic : String := "topic:ScannerRegistry.StakeThresholdChanged"

/-- Modelled topic constant of `contract_scanner_pool_registry_0_1_0`. -/
def PoolScannerUpdatedTopic : String := "topic:ScannerPoolRegistry.ScannerUpdated"

/-- Modelled topic constant of `contract_scanner_pool_registry_0_1_0`. -/
def ManagedStakeThresholdChangedTopic : String :=
  "topic:ScannerPoolRegistry.ManagedStakeThresholdChanged"

/-- Modelled topic constant of `contract_scanner_pool_registry_0_1_0`. -/
def TransferTopic : String := "topic:ScannerPoolRegistry.Transfer"

/-- Modelled topic constant of `contract_scanner_pool_registry_0_1_0`. -/
def ScannerPoolRegisteredTopic : String := "topic:ScannerPoolRegistry.ScannerPoolRegistered"

/-- Modelled topic constant of `contract_scanner_pool_registry_0_1_0`. -/
def EnabledScannersChangedTopic : String := "topic:ScannerPoolRegistry.EnabledScannersChanged"

/-- Modelled topic constant of `contract_scanner_node_version_0_1_1`. -/
def ScannerNodeVersionUpdatedTopic : String :=
  "topic:ScannerNodeVersion.ScannerNodeVersionUpdated"

/-- Modelled topic constant of `contract_agent_registry_0_1_6`. -/
def AgentUpdatedTopic : String := "topic:AgentRegistry.AgentUpdated"

/-- Modelled topic constant of `contract_agent_registry_0_1_6`. -/
def AgentEnabledTopic : String := "topic:AgentRegistry.AgentEnabled"

/-- Modelled topic constant of `contract_agent_registry_0_1_6`. -/
def AgentStakeThresholdChangedTopic : String := "topic:AgentRegistry.StakeThresholdChanged"

/-- Modelled topic constant of `contract_forta_staking_0_1_2`. -/
def StakeDepositedTopic : String := "topic:FortaStaking.StakeDeposited"

/-- Modelled topic constant of `contract_forta_staking_0_1_2`. -/
def WithdrawalInitiatedTopic : String := "topic:FortaStaking.WithdrawalInitiated"

/-- Modelled topic constant of `contract_forta_staking_0_1_2`. -/
def SlashedTopic : String := "topic:FortaStaking.Slashed"

/-- Modelled topic constant of `contract_forta_staking_0_1_2`. -/
def TransferSingleTopic : String := "topic:FortaStaking.TransferSingle"

/-- Modelled topic constant of `contract_forta_staking_0_1_2`. -/
def TransferBatchTopic : String := "topic:FortaStaking.TransferBatch"

/-- Modelled topic constant of `contract_stake_allocator_0_1_0`. -/
def AllocatedStakeTopic : String := "topic:StakeAllocator.AllocatedStake"

/-- Modelled topic constant of `contract_dispatch_0_1_5`. -/
def LinkTopic : String := "topic:Dispatch.Link"

/-- Modelled topic constant of `contract_dispatch_0_1_5`. -/
def AlreadyLinkedTopic : String := "topic:Dispatch.AlreadyLinked"

/-! ## Contract address registry and configuration -/

/-- Role → current address, as read through `l.client.Contracts().Addresses`.
The listener dereferences the first five roles unconditionally and
nil-checks `ScannerPoolRegistry` and `StakeAllocator` (the optional roles),
so only those two are `Option`. -/
structure RegistryContracts where
  ScannerRegistry : Nat
  ScannerNodeVersion : Nat
  AgentRegistry : Nat
  Dispatch : Nat
  FortaStaking : Nat
  ScannerPoolRegistry : Option Nat
  StakeAllocator : Option Nat
deriving DecidableEq, Repr

/-- The part of the registry client's `Contracts()` result the listener
reads (the per-contract decoders are external collaborators, modelled as
`Env` fields below). -/
structure Contracts where
  Addresses : RegistryContracts
deriving DecidableEq, Repr

/-- The source's ContractFilter: per-role subscription flags. -/
structure ContractFilter where
  AgentRegistry : Bool
  ScannerRegistry : Bool
  ScannerPoolRegistry : Bool
  DispatchRegistry : Bool
  FortaStaking : Bool
  ScannerVersion : Bool
  StakeAllocator : Bool
deriving DecidableEq, Repr

/-- Modelled from the spec: `getAllContractAddrs` (not under `src/`) — "if
none are set, all known (non-nil) role addresses are subscribed". -/
def getAllContractAddrs (rc : RegistryContracts) : List Nat :=
  [rc.AgentRegistry, rc.ScannerRegistry, rc.FortaStaking, rc.Dispatch,
    rc.ScannerNodeVersion] ++ rc.ScannerPoolRegistry.toList ++ rc.StakeAllocator.toList

/-- The address list built by `setLogFilterAddrs` before its emptiness
check, in the source's append order. -/
def resolveFilterAddrs (filter : Option ContractFilter) (rc : RegistryContracts) : List Nat :=
  match filter with
  | some f =>
    (if f.AgentRegistry then [rc.AgentRegistry] else []) ++
    (if f.ScannerRegistry then [rc.ScannerRegistry] else []) ++
    (if f.FortaStaking then [rc.FortaStaking] else []) ++
    (if f.DispatchRegistry then [rc.Dispatch] else []) ++
    (if f.ScannerVersion then [rc.ScannerNodeVersion] else []) ++
    (if f.ScannerPoolRegistry then rc.ScannerPoolRegistry.toList else []) ++
    (if f.StakeAllocator then rc.StakeAllocator.toList else [])
  | none => getAllContractAddrs rc

/-- The source's setLogFilterAddrs: resolves the subscribed addresses and panics
(`panic("empty filter")`, modelled as `none`) when the resolved set is
empty; otherwise feeds each address to the log feed and returns them. -/
def setLogFilterAddrs (filter : Option ContractFilter) (rc : RegistryContracts) :
    Option (List Nat) :=
  let addrs := resolveFilterAddrs filter rc
  if addrs.isEmpty then none else some addrs

/-- The construction-time part of `NewListenerWithClients` that the claims
concern: the initial `setLogFilterAddrs` call.  A panic there is modelled as
an `Except.error` construction failure; on success the listener is built
with the resolved address set.  (Failures of the external log-feed
constructor are outside the model.) -/
def NewListenerWithClients (filter : Option ContractFilter) (rc : RegistryContracts) :
    Except Err (List Nat) :=
  match setLogFilterAddrs filter rc with
  | none => .error ⟨"empty filter"⟩
  | some addrs => .ok addrs

/-! ## Typed events (decoder outputs) and domain messages

Decoders are external collaborators; each `ParseX` is an `Env` field.  Only
the event fields the listener reads appear. -/

/-- Decoded `ScannerUpdated` (scanner registry). -/
structure ScannerUpdatedEvent where
  ScannerId : Nat
deriving DecidableEq, Repr

/-- Decoded `ScannerEnabled` (scanner registry); `Enabled` is the event's
own flag, which the listener overwrites with the AND of the queried state. -/
structure ScannerEnabledEvent where
  ScannerId : Nat
  Enabled : Bool
deriving DecidableEq, Repr

/-- Decoded `ScannerUpdated` (scanner pool registry). -/
structure PoolScannerUpdatedEvent where
  ScannerId : Nat
deriving DecidableEq, Repr

/-- Decoded ERC-721 `Transfer` (scanner pool registry). -/
structure TransferEvent where
  From : Nat
  To : Nat
  TokenId : Nat
deriving DecidableEq, Repr

/-- Decoded `ScannerPoolRegistered`. -/
structure ScannerPoolRegisteredEvent where
  ScannerPoolId : Nat
deriving DecidableEq, Repr

/-- Decoded `AgentUpdated`. -/
structure AgentUpdatedEvent where
  AgentId : Nat
deriving DecidableEq, Repr

/-- Decoded `AgentEnabled`; `Enabled` is the event's own flag, emitted
as-is. -/
structure AgentEnabledEvent where
  AgentId : Nat
  Enabled : Bool
deriving DecidableEq, Repr

/-- Decoded `StakeDeposited`. -/
structure StakeDepositedEvent where
  SubjectType : Nat
  Subject : Nat
  Amount : Nat
  Account : Nat
deriving DecidableEq, Repr

/-- Decoded `WithdrawalInitiated` (no value/account fields are read). -/
structure WithdrawalInitiatedEvent where
  SubjectType : Nat
  Subject : Nat
deriving DecidableEq, Repr

/-- Decoded `Slashed` (no account field is read). -/
structure SlashedEvent where
  SubjectType : Nat
  Subject : Nat
  Value : Nat
deriving DecidableEq, Repr

/-- Decoded ERC-1155 `TransferBatch`. -/
structure TransferBatchEvent where
  To : Nat
  Ids : List Nat
  Values : List Nat
deriving DecidableEq, Repr

/-- Decoded proxy `Upgraded` event. -/
structure UpgradedEvent where
  NewImplementation : Nat
deriving DecidableEq, Repr

/-- The agent record returned by the state client's `GetAgent`. -/
structure AgentInfo where
  Enabled : Bool
deriving DecidableEq, Repr

/-- Modelled from the spec: `registry.ChangeType*` constants (not under
`src/`), the stake-change kinds "deposit"/"withdrawal"/"slash". -/
def ChangeTypeDeposit : String := "deposit"

/-- Modelled from the spec: see `ChangeTypeDeposit`. -/
def ChangeTypeWithdrawal : String := "withdrawal"

/-- Modelled from the spec: see `ChangeTypeDeposit`. -/
def ChangeTypeSlash : String := "slash"

/-- Modelled from the spec: the numeric `subjectType` tags (registry
package constants not under `src/`); three distinct values for scanner /
agent / scanner-pool subjects. -/
def SubjectTypeScanner : Nat := 0

/-- Modelled from the spec: see `SubjectTypeScanner`. -/
def SubjectTypeAgent : Nat := 1

/-- Modelled from the spec: see `SubjectTypeScanner`. -/
def SubjectTypeScannerPool : Nat := 2

/-- Modelled from the spec: `utils.ScannerIDBigIntToHex` (not under `src/`)
encodes a numeric scanner id as a hex identifier. -/
def ScannerIDBigIntToHex (n : Nat) : String :=
  "0x" ++ String.mk (Nat.toDigits 16 n)

/-- Modelled from the spec: `utils.AgentBigIntToHex` (not under `src/`)
encodes a numeric agent id as a hex identifier. -/
def AgentBigIntToHex (n : Nat) : String :=
  "0x" ++ String.mk (Nat.toDigits 16 n)

/-- Go `(*big.Int).String()`: the decimal representation, used for scanner
pool ids. -/
def bigIntDecimalString (n : Nat) : String :=
  toString n

/-- Domain messages, one constructor per message-constructor call site in
`listener.go`, carrying exactly the listener-supplied arguments the claims
mention. -/
inductive Msg where
  | ScannerSave (su : ScannerUpdatedEvent) (enabled : Bool)
  | Scanner (se : ScannerEnabledEvent)
  | ScannerStakeThreshold
  | ScannerSaveFromPool (su : PoolScannerUpdatedEvent) (enabled : Bool)
  | ScannerManagedStakeThreshold
  | ScannerPoolFromTransfer (evt : TransferEvent)
  | ScannerPoolFromRegistration (evt : ScannerPoolRegisteredEvent) (owner : Nat)
  | ScannerPoolFromEnablement
  | ScannerNodeVersion
  | AgentSave (au : AgentUpdatedEvent) (enabled : Bool)
  | Agent (ae : AgentEnabledEvent)
  | AgentStakeThreshold
  | Dispatch
  | AlreadyLinkedDispatch
  | Upgrade (evt : UpgradedEvent)
  | ScannerStake (changeType : String) (acct : Nat) (scannerID : String) (value : Option Nat)
  | AgentStake (changeType : String) (acct : Nat) (agentID : String) (value : Option Nat)
  | ScannerPoolStake (changeType : String) (acct : Nat) (poolID : String) (value : Option Nat)
  | TransferSharesSingle
  | TransferShares (toAddr : Nat) (id : Nat) (value : Nat)
  | ScannerPoolAllocation
deriving DecidableEq, Repr

/-- Modelled from the spec: `registry.TransferSharesMessageFromSingle` (not
under `src/`) converts a `TransferSingle` event into one share-transfer
message (it can also fail, hence `Except`). -/
def TransferSharesMessageFromSingle : Except Err Msg :=
  .ok .TransferSharesSingle

/-- Modelled from the spec: `registry.TransferSharesMessagesFromBatch` (not
under `src/`) converts a `TransferBatch` event with K transferred entries
into exactly K share-transfer messages, in entry order. -/
def TransferSharesMessagesFromBatch (evt : TransferBatchEvent) : Except Err (List Msg) :=
  .ok ((evt.Ids.zip evt.Values).map fun p => .TransferShares evt.To p.1 p.2)

/-! ## The listener model

Handling is serialized (worker mutex / live loop), so it is embedded as a
sequential function producing a trace of observable effects. -/

/-- Logical contract roles of the address registry. -/
inductive Role where
  | scannerRegistry
  | scannerNodeVersion
  | agentRegistry
  | dispatch
  | fortaStaking
  | scannerPoolRegistry
  | stakeAllocator
deriving DecidableEq, Repr

/-- Observable effects of handling a log, in execution order. -/
inductive Effect where
  | refreshContracts
  | setFilterAddrs (addrs : List Nat)
  | route (r : Role)
  | emit (m : Msg)
  | queryIsEnabledScanner (scannerID : String)
  | queryGetAgent (agentID : String)
  | queryGetScannerPoolOwner (poolID : Nat)
deriving DecidableEq, Repr

/-- Result of a role handler: the returned `error` and the effect trace. -/
structure HRes where
  result : Except Err Unit
  trace : List Effect

/-- Listener state: the registry client's current contract set, swapped by
a successful refresh. -/
structure LState where
  contracts : Contracts

/-- Result of `handleLog`: error, post state, effect trace. -/
structure LRes where
  result : Except Err Unit
  state : LState
  trace : List Effect

/-- External collaborators and configuration: decoders, the registry state
client, the message sink, and the configured contract filter. -/
structure Env where
  ParseScannerUpdated : EthLog → Except Err ScannerUpdatedEvent
  ParseScannerEnabled : EthLog → Except Err ScannerEnabledEvent
  ParseStakeThresholdChanged : EthLog → Except Err Unit
  ParsePoolScannerUpdated : EthLog → Except Err PoolScannerUpdatedEvent
  ParseManagedStakeThresholdChanged : EthLog → Except Err Unit
  ParseTransfer : EthLog → Except Err TransferEvent
  ParseScannerPoolRegistered : EthLog → Except Err ScannerPoolRegisteredEvent
  ParseEnabledScannersChanged : EthLog → Except Err Unit
  ParseScannerNodeVersionUpdated : EthLog → Except Err Unit
  ParseAgentUpdated : EthLog → Except Err AgentUpdatedEvent
  ParseAgentEnabled : EthLog → Except Err AgentEnabledEvent
  ParseAgentStakeThresholdChanged : EthLog → Except Err Unit
  ParseStakeDeposited : EthLog → Except Err StakeDepositedEvent
  ParseWithdrawalInitiated : EthLog → Except Err WithdrawalInitiatedEvent
  ParseSlashed : EthLog → Except Err SlashedEvent
  ParseTransferSingle : EthLog → Except Err Unit
  ParseTransferBatch : EthLog → Except Err TransferBatchEvent
  ParseAllocatedStake : EthLog → Except Err Unit
  ParseLink : EthLog → Except Err Unit
  ParseAlreadyLinked : EthLog → Except Err Unit
  ParseUpgraded : EthLog → Except Err UpgradedEvent
  IsEnabledScanner : String → Except Err Bool
  GetAgent : String → Except Err AgentInfo
  GetScannerPoolOwner : Nat → Except Err Nat
  RefreshContracts : Except Err Contracts
  handler : Msg → Except Err Unit
  contractFilter : Option ContractFilter

/-- Source function handleScannerRegistryEvent. -/
def handleScannerRegistryEvent (env : Env) (le : EthLog) : HRes :=
  if getTopic le = ScannerUpdatedTopic then
    match env.ParseScannerUpdated le with
    | .error e => ⟨.error e, []⟩
    | .ok su =>
      match env.IsEnabledScanner (ScannerIDBigIntToHex su.ScannerId) with
      | .error e => ⟨.error e, [.queryIsEnabledScanner (ScannerIDBigIntToHex su.ScannerId)]⟩
      | .ok enabled =>
        ⟨env.handler (.ScannerSave su enabled),
          [.queryIsEnabledScanner (ScannerIDBigIntToHex su.ScannerId),
            .emit (.ScannerSave su enabled)]⟩
  else if getTopic le = ScannerEnabledTopic then
    match env.ParseScannerEnabled le with
    | .error e => ⟨.error e, []⟩
    | .ok se =>
      match env.IsEnabledScanner (ScannerIDBigIntToHex se.ScannerId) with
      | .error e => ⟨.error e, [.queryIsEnabledScanner (ScannerIDBigIntToHex se.ScannerId)]⟩
      | .ok enabled =>
        ⟨env.handler (.Scanner { se with Enabled := enabled && se.Enabled }),
          [.queryIsEnabledScanner (ScannerIDBigIntToHex se.ScannerId),
            .emit (.Scanner { se with Enabled := enabled && se.Enabled })]⟩
  else if getTopic le = StakeThresholdChangedTopic then
    match env.ParseStakeThresholdChanged le with
    | .error e => ⟨.error e, []⟩
    | .ok _ => ⟨env.handler .ScannerStakeThreshold, [.emit .ScannerStakeThreshold]⟩
  else ⟨.ok (), []⟩

/-- Source function handleScannerPoolRegistryEvent. -/
def handleScannerPoolRegistryEvent (env : Env) (le : EthLog) : HRes :=
  if getTopic le = PoolScannerUpdatedTopic then
    match env.ParsePoolScannerUpdated le with
    | .error e => ⟨.error e, []⟩
    | .ok su =>
      match env.IsEnabledScanner (ScannerIDBigIntToHex su.ScannerId) with
      | .error e => ⟨.error e, [.queryIsEnabledScanner (ScannerIDBigIntToHex su.ScannerId)]⟩
      | .ok enabled =>
        ⟨env.handler (.ScannerSaveFromPool su enabled),
          [.queryIsEnabledScanner (ScannerIDBigIntToHex su.ScannerId),
            .emit (.ScannerSaveFromPool su enabled)]⟩
  else if getTopic le = ManagedStakeThresholdChangedTopic then
    match env.ParseManagedStakeThresholdChanged le with
    | .error e => ⟨.error e, []⟩
    | .ok _ =>
      ⟨env.handler .ScannerManagedStakeThreshold, [.emit .ScannerManagedStakeThreshold]⟩
  else if getTopic le = TransferTopic then
    match env.ParseTransfer le with
    | .error e => ⟨.error e, []⟩
    | .ok evt =>
      if evt.From = ZeroAddress then
        ⟨.ok (), []⟩
      else
        ⟨env.handler (.ScannerPoolFromTransfer evt),
          [.emit (.ScannerPoolFromTransfer evt)]⟩
  else if getTopic le = ScannerPoolRegisteredTopic then
    match env.ParseScannerPoolRegistered le with
    | .error e => ⟨.error e, []⟩
    | .ok evt =>
      match env.GetScannerPoolOwner evt.ScannerPoolId with
      | .error e =>
        ⟨.error ⟨"failed to get scanner pool owner: " ++ e.msg⟩,
          [.queryGetScannerPoolOwner evt.ScannerPoolId]⟩
      | .ok owner =>
        ⟨env.handler (.ScannerPoolFromRegistration evt owner),
          [.queryGetScannerPoolOwner evt.ScannerPoolId,
            .emit (.ScannerPoolFromRegistration evt owner)]⟩
  else if getTopic le = EnabledScannersChangedTopic then
    match env.ParseEnabledScannersChanged le with
    | .error e => ⟨.error e, []⟩
    | .ok _ =>
      ⟨env.handler .ScannerPoolFromEnablement, [.emit .ScannerPoolFromEnablement]⟩
  else ⟨.ok (), []⟩

/-- Source function handleScannerVersionEvent. -/
def handleScannerVersionEvent (env : Env) (le : EthLog) : HRes :=
  if getTopic le = ScannerNodeVersionUpdatedTopic then
    match env.ParseScannerNodeVersionUpdated le with
    | .error e => ⟨.error e, []⟩
    | .ok _ => ⟨env.handler .ScannerNodeVersion, [.emit .ScannerNodeVersion]⟩
  else ⟨.ok (), []⟩

/-- Source function handleAgentRegistryEvent. -/
def handleAgentRegistryEvent (env : Env) (le : EthLog) : HRes :=
  if getTopic le = AgentUpdatedTopic then
    match env.ParseAgentUpdated le with
    | .error e => ⟨.error e, []⟩
    | .ok au =>
      match env.GetAgent (AgentBigIntToHex au.AgentId) with
      | .error e => ⟨.error e, [.queryGetAgent (AgentBigIntToHex au.AgentId)]⟩
      | .ok agt =>
        ⟨env.handler (.AgentSave au agt.Enabled),
          [.queryGetAgent (AgentBigIntToHex au.AgentId), .emit (.AgentSave au agt.Enabled)]⟩
  else if getTopic le = AgentEnabledTopic then
    match env.ParseAgentEnabled le with
    | .error e => ⟨.error e, []⟩
    | .ok ae => ⟨env.handler (.Agent ae), [.emit (.Agent ae)]⟩
  else if getTopic le = AgentStakeThresholdChangedTopic then
    match env.ParseAgentStakeThresholdChanged le with
    | .error e => ⟨.error e, []⟩
    | .ok _ => ⟨env.handler .AgentStakeThreshold, [.emit .AgentStakeThreshold]⟩
  else ⟨.ok (), []⟩

/-- The trailing `switch subjectType` of `handleFortaStakingEvent`:
re-dispatch of the common stake tuple by subject type into the three
identifier encodings; an unrecognized subject type is logged and dropped. -/
def stakeMessageDispatch (env : Env) (subjectType subjectID : Nat)
    (changeType : String) (acct : Nat) (value : Option Nat) : HRes :=
  if subjectType = SubjectTypeScanner then
    ⟨env.handler (.ScannerStake changeType acct (ScannerIDBigIntToHex subjectID) value),
      [.emit (.ScannerStake changeType acct (ScannerIDBigIntToHex subjectID) value)]⟩
  else if subjectType = SubjectTypeAgent then
    ⟨env.handler (.AgentStake changeType acct (AgentBigIntToHex subjectID) value),
      [.emit (.AgentStake changeType acct (AgentBigIntToHex subjectID) value)]⟩
  else if subjectType = SubjectTypeScannerPool then
    ⟨env.handler (.ScannerPoolStake changeType acct (bigIntDecimalString subjectID) value),
      [.emit (.ScannerPoolStake changeType acct (bigIntDecimalString subjectID) value)]⟩
  else ⟨.ok (), []⟩

/-- The `for _, m := range ms` delivery loop of the `TransferBatch` branch:
deliver each message in order, aborting on the first handler error. -/
def deliverAll (env : Env) : List Msg → HRes
  | [] => ⟨.ok (), []⟩
  | m :: rest =>
    match env.handler m with
    | .error e => ⟨.error e, [.emit m]⟩
    | .ok _ => ⟨(deliverAll env rest).result, .emit m :: (deliverAll env rest).trace⟩

/-- Source function handleFortaStakingEvent. -/
def handleFortaStakingEvent (env : Env) (le : EthLog) : HRes :=
  if getTopic le = StakeDepositedTopic then
    match env.ParseStakeDeposited le with
    | .error e => ⟨.error e, []⟩
    | .ok evt =>
      stakeMessageDispatch env evt.SubjectType evt.Subject ChangeTypeDeposit
        evt.Account (some evt.Amount)
  else if getTopic le = WithdrawalInitiatedTopic then
    match env.ParseWithdrawalInitiated le with
    | .error e => ⟨.error e, []⟩
    | .ok evt =>
      stakeMessageDispatch env evt.SubjectType evt.Subject ChangeTypeWithdrawal 0 none
  else if getTopic le = SlashedTopic then
    match env.ParseSlashed le with
    | .error e => ⟨.error e, []⟩
    | .ok evt =>
      stakeMessageDispatch env evt.SubjectType evt.Subject ChangeTypeSlash 0
        (some evt.Value)
  else if getTopic le = TransferSingleTopic then
    match env.ParseTransferSingle le with
    | .error e => ⟨.error e, []⟩
    | .ok _ =>
      match TransferSharesMessageFromSingle with
      | .error e => ⟨.error e, []⟩
      | .ok m => ⟨env.handler m, [.emit m]⟩
  else if getTopic le = TransferBatchTopic then
    match env.ParseTransferBatch le with
    | .error e => ⟨.error e, []⟩
    | .ok evt =>
      match TransferSharesMessagesFromBatch evt with
      | .error e => ⟨.error e, []⟩
      | .ok ms => deliverAll env ms
  else ⟨.ok (), []⟩

/-- Source function handleStakeAllocatorEvent. -/
def handleStakeAllocatorEvent (env : Env) (le : EthLog) : HRes :=
  if getTopic le = AllocatedStakeTopic then
    match env.ParseAllocatedStake le with
    | .error e => ⟨.error e, []⟩
    | .ok _ => ⟨env.handler .ScannerPoolAllocation, [.emit .ScannerPoolAllocation]⟩
  else ⟨.ok (), []⟩

/-- Source function handleDispatchEvent. -/
def handleDispatchEvent (env : Env) (le : EthLog) : HRes :=
  if getTopic le = LinkTopic then
    match env.ParseLink le with
    | .error e => ⟨.error e, []⟩
    | .ok _ => ⟨env.handler .Dispatch, [.emit .Dispatch]⟩
  else if getTopic le = AlreadyLinkedTopic then
    match env.ParseAlreadyLinked le with
    | .error e => ⟨.error e, []⟩
    | .ok _ => ⟨env.handler .AlreadyLinkedDispatch, [.emit .AlreadyLinkedDispatch]⟩
  else ⟨.ok (), []⟩

/-- Source function handleUpgradeEvent: no-op on a non-matching first
topic; otherwise refresh the contracts, recompute the log filter addresses
(`setLogFilterAddrs`; its `panic("empty filter")` is modelled as an error),
decode the upgrade event and emit the upgrade message. -/
def handleUpgradeEvent (env : Env) (s : LState) (le : EthLog) : LRes :=
  if getTopic le = UpgradedTopic then
    match env.RefreshContracts with
    | .error e => ⟨.error e, s, [.refreshContracts]⟩
    | .ok newContracts =>
      match setLogFilterAddrs env.contractFilter newContracts.Addresses with
      | none => ⟨.error ⟨"empty filter"⟩, ⟨newContracts⟩, [.refreshContracts]⟩
      | some addrs =>
        match env.ParseUpgraded le with
        | .error e => ⟨.error e, ⟨newContracts⟩, [.refreshContracts, .setFilterAddrs addrs]⟩
        | .ok up =>
          ⟨env.handler (.Upgrade up), ⟨newContracts⟩,
            [.refreshContracts, .setFilterAddrs addrs, .emit (.Upgrade up)]⟩
  else ⟨.ok (), s, []⟩

/-- Marks entry into a role's interpreter (address matched that role). -/
def withRoute (r : Role) (h : HRes) : HRes :=
  ⟨h.result, .route r :: h.trace⟩

/-- The address-matching chain of `handleLog` (everything after the upgrade
check), against the contract snapshot `c` taken at the top of `handleLog`. -/
def routeLog (env : Env) (c : Contracts) (le : EthLog) : HRes :=
  if equalsAddress le.address c.Addresses.ScannerRegistry then
    withRoute .scannerRegistry (handleScannerRegistryEvent env le)
  else if equalsAddress le.address c.Addresses.ScannerNodeVersion then
    withRoute .scannerNodeVersion (handleScannerVersionEvent env le)
  else if equalsAddress le.address c.Addresses.AgentRegistry then
    withRoute .agentRegistry (handleAgentRegistryEvent env le)
  else if equalsAddress le.address c.Addresses.Dispatch then
    withRoute .dispatch (handleDispatchEvent env le)
  else if equalsAddress le.address c.Addresses.FortaStaking then
    withRoute .fortaStaking (handleFortaStakingEvent env le)
  else if optAddrMatches c.Addresses.ScannerPoolRegistry le.address then
    withRoute .scannerPoolRegistry (handleScannerPoolRegistryEvent env le)
  else if optAddrMatches c.Addresses.StakeAllocator le.address then
    withRoute .stakeAllocator (handleStakeAllocatorEvent env le)
  else ⟨.ok (), []⟩

/-- Source function handleLog: take the contract snapshot, run the
upgrade check first (propagating its error), then route by address against
the snapshot.  The cancellation check (`ctx.Err()`) is outside the model. -/
def handleLog (env : Env) (s : LState) (le : EthLog) : LRes :=
  match handleUpgradeEvent env s le with
  | ⟨.error e, s1, t⟩ => ⟨.error e, s1, t⟩
  | ⟨.ok _, s1, t⟩ =>
    ⟨(routeLog env s.contracts le).result, s1, t ++ (routeLog env s.contracts le).trace⟩

/-- Sequential handling of a list of logs: the serialized dispatch order
(worker mutex in `ProcessBlockRange`, one-at-a-time live loop in
`Listen`). -/
def handleLogs (env : Env) (s : LState) : List EthLog → LRes
  | [] => ⟨.ok (), s, []⟩
  | le :: rest =>
    match handleLog env s le with
    | ⟨.error e, s1, t⟩ => ⟨.error e, s1, t⟩
    | ⟨.ok _, s1, t⟩ =>
      ⟨(handleLogs env s1 rest).result, (handleLogs env s1 rest).state,
        t ++ (handleLogs env s1 rest).trace⟩

/-! ## Trace classification lemmas -/

/-- Effects a role interpreter can produce: queries and emissions only
(never a refresh, a filter recomputation, or a route marker). -/
def isBenign : Effect → Bool
  | .refreshContracts => false
  | .setFilterAddrs _ => false
  | .route _ => false
  | _ => true

/-- Effects that are not route markers. -/
def notRoute : Effect → Bool
  | .route _ => false
  | _ => true

/-- Effects that are neither refreshes nor filter recomputations. -/
def notRefreshNorFilter : Effect → Bool
  | .refreshContracts => false
  | .setFilterAddrs _ => false
  | _ => true

lemma benign_notRoute {x : Effect} (h : isBenign x = true) : notRoute x = true := by
  cases x <;> simp_all [isBenign, notRoute]

lemma benign_notRefreshNorFilter {x : Effect} (h : isBenign x = true) :
    notRefreshNorFilter x = true := by
  cases x <;> simp_all [isBenign, notRefreshNorFilter]

lemma all_imp {p q : Effect → Bool} (h : ∀ x, p x = true → q x = true) :
    ∀ {t : List Effect}, t.all p = true → t.all q = true := by
  intro t ht
  rw [List.all_eq_true] at ht ⊢
  exact fun x hx => h x (ht x hx)

lemma not_mem_of_all {t : List Effect} {p : Effect → Bool} {x : Effect}
    (ht : t.all p = true) (hx : p x = false) : x ∉ t := by
  intro hmem
  have := List.all_eq_true.mp ht _ hmem
  rw [hx] at this
  exact Bool.false_ne_true this

lemma handleScannerRegistryEvent_benign (env : Env) (le : EthLog) :
    (handleScannerRegistryEvent env le).trace.all isBenign = true := by
  unfold handleScannerRegistryEvent
  repeat' split
  all_goals rfl

lemma handleScannerPoolRegistryEvent_benign (env : Env) (le : EthLog) :
    (handleScannerPoolRegistryEvent env le).trace.all isBenign = true := by
  unfold handleScannerPoolRegistryEvent
  repeat' split
  all_goals rfl

lemma handleScannerVersionEvent_benign (env : Env) (le : EthLog) :
    (handleScannerVersionEvent env le).trace.all isBenign = true := by
  unfold handleScannerVersionEvent
  repeat' split
  all_goals rfl

lemma handleAgentRegistryEvent_benign (env : Env) (le : EthLog) :
    (handleAgentRegistryEvent env le).trace.all isBenign = true := by
  unfold handleAgentRegistryEvent
  repeat' split
  all_goals rfl

lemma stakeMessageDispatch_benign (env : Env) (st si : Nat) (ct : String) (acct : Nat)
    (v : Option Nat) :
    (stakeMessageDispatch env st si ct acct v).trace.all isBenign = true := by
  unfold stakeMessageDispatch
  repeat' split
  all_goals rfl

lemma deliverAll_benign (env : Env) (ms : List Msg) :
    (deliverAll env ms).trace.all isBenign = true := by
  induction ms with
  | nil => rfl
  | cons m rest ih =>
    unfold deliverAll
    cases env.handler m <;> simp [isBenign, ih]

lemma handleFortaStakingEvent_benign (env : Env) (le : EthLog) :
    (handleFortaStakingEvent env le).trace.all isBenign = true := by
  unfold handleFortaStakingEvent
  repeat' split
  all_goals first
    | rfl
    | apply stakeMessageDispatch_benign
    | apply deliverAll_benign

lemma handleStakeAllocatorEvent_benign (env : Env) (le : EthLog) :
    (handleStakeAllocatorEvent env le).trace.all isBenign = true := by
  unfold handleStakeAllocatorEvent
  repeat' split
  all_goals rfl

lemma handleDispatchEvent_benign (env : Env) (le : EthLog) :
    (handleDispatchEvent env le).trace.all isBenign = true := by
  unfold handleDispatchEvent
  repeat' split
  all_goals rfl

lemma handleUpgradeEvent_notRoute (env : Env) (s : LState) (le : EthLog) :
    (handleUpgradeEvent env s le).trace.all notRoute = true := by
  unfold handleUpgradeEvent
  repeat' split
  all_goals rfl

lemma routeLog_notRefreshNorFilter (env : Env) (c : Contracts) (le : EthLog) :
    (routeLog env c le).trace.all notRefreshNorFilter = true := by
  unfold routeLog
  repeat' split
  all_goals
    first
    | rfl
    | (simp only [withRoute, List.all_cons, Bool.and_eq_true]
       constructor
       · rfl
       · first
         | exact all_imp (fun x hx => benign_notRefreshNorFilter hx)
             (handleScannerRegistryEvent_benign env le)
         | exact all_imp (fun x hx => benign_notRefreshNorFilter hx)
             (handleScannerVersionEvent_benign env le)
         | exact all_imp (fun x hx => benign_notRefreshNorFilter hx)
             (handleAgentRegistryEvent_benign env le)
         | exact all_imp (fun x hx => benign_notRefreshNorFilter hx)
             (handleDispatchEvent_benign env le)
         | exact all_imp (fun x hx => benign_notRefreshNorFilter hx)
             (handleFortaStakingEvent_benign env le)
         | exact all_imp (fun x hx => benign_notRefreshNorFilter hx)
             (handleScannerPoolRegistryEvent_benign env le)
         | exact all_imp (fun x hx => benign_notRefreshNorFilter hx)
             (handleStakeAllocatorEvent_benign env le))

/-- The trace of `handleLog` is the upgrade-step trace followed, when the
upgrade step succeeded, by the routing trace (against the pre-upgrade
contract snapshot). -/
lemma handleLog_trace_split (env : Env) (s : LState) (le : EthLog) :
    (handleLog env s le).trace =
      (handleUpgradeEvent env s le).trace ++
        (match (handleUpgradeEvent env s le).result with
          | .ok _ => (routeLog env s.contracts le).trace
          | .error _ => []) := by
  unfold handleLog
  rcases h : handleUpgradeEvent env s le with ⟨res, s1, t⟩
  cases res <;> simp

/-- C2: for a log whose first topic is the shared Upgraded topic (with the
refresh, the filter recomputation and the decode succeeding), handling
invokes the refresh exactly once, and the trace order is: refresh, then
filter recomputation (from the refreshed contract set), then the upgrade
message emission, with everything else — including all routing of this log
and of any subsequent logs handled in sequence — strictly after. -/
theorem handleLog_upgrade_refresh_order
    (env : Env) (s : LState) (le : EthLog)
    (nc : Contracts) (addrs : List Nat) (up : UpgradedEvent)
    (htopic : getTopic le = UpgradedTopic)
    (hrefresh : env.RefreshContracts = .ok nc)
    (hfilter : setLogFilterAddrs env.contractFilter nc.Addresses = some addrs)
    (hparse : env.ParseUpgraded le = .ok up) :
    (∃ rest, (handleLog env s le).trace =
        .refreshContracts :: .setFilterAddrs addrs :: .emit (.Upgrade up) :: rest) ∧
    (handleLog env s le).trace.count Effect.refreshContracts = 1 ∧
    (∀ ls : List EthLog, ∃ t,
        (handleLogs env s (le :: ls)).trace =
          .refreshContracts :: .setFilterAddrs addrs :: .emit (.Upgrade up) :: t) := by
  have hup : handleUpgradeEvent env s le =
      ⟨env.handler (.Upgrade up), ⟨nc⟩,
        [.refreshContracts, .setFilterAddrs addrs, .emit (.Upgrade up)]⟩ := by
    simp only [handleUpgradeEvent, htopic, hrefresh, hfilter, hparse]
    simp
  have hsplit := handleLog_trace_split env s le
  rw [hup] at hsplit
  have hEx : ∃ rest, ((handleLog env s le).trace =
      .refreshContracts :: .setFilterAddrs addrs :: .emit (.Upgrade up) :: rest) ∧
      rest.all notRefreshNorFilter = true := by
    cases hh : env.handler (.Upgrade up) with
    | error e0 =>
      simp only [hh] at hsplit
      exact ⟨[], by simpa using hsplit, rfl⟩
    | ok u =>
      simp only [hh] at hsplit
      exact ⟨(routeLog env s.contracts le).trace, by simpa using hsplit,
        routeLog_notRefreshNorFilter env s.contracts le⟩
  obtain ⟨rest, htr, hrest⟩ := hEx
  refine ⟨⟨rest, htr⟩, ?_, ?_⟩
  · rw [htr]
    have hnotmem : Effect.refreshContracts ∉ rest := not_mem_of_all hrest rfl
    simp [List.count_cons, List.count_eq_zero.mpr hnotmem]
  · intro ls
    rcases hL : handleLog env s le with ⟨res, s1, t⟩
    rw [hL] at htr
    have htr2 : t = .refreshContracts :: .setFilterAddrs addrs :: .emit (.Upgrade up) :: rest :=
      htr
    cases res with
    | error e0 =>
      refine ⟨rest, ?_⟩
      unfold handleLogs
      rw [hL]
      simpa using htr2
    | ok u =>
      refine ⟨rest ++ (handleLogs env s1 ls).trace, ?_⟩
      unfold handleLogs
      rw [hL]
      simp [htr2]
      cases ls <;> rfl

/-- A concrete contract set for evaluating the model. -/
def contracts0 : Contracts := ⟨⟨1, 2, 3, 4, 5, some 6, some 7⟩⟩

/-- A second concrete contract set, as the result of a refresh. -/
def contracts1 : Contracts := ⟨⟨11, 12, 13, 14, 15, some 16, none⟩⟩

/-- Concrete listener state whose snapshot is `contracts0`. -/
def s0 : LState := ⟨contracts0⟩

/-- A concrete log carrying the Upgraded topic, whose address equals the
scanner registry role address of `contracts0`. -/
def le0 : EthLog := ⟨1, [UpgradedTopic]⟩

/-- A concrete environment with total, succeeding collaborators. -/
def env0 : Env :=
  { ParseScannerUpdated := fun _ => .ok ⟨21⟩
    ParseScannerEnabled := fun _ => .ok ⟨21, true⟩
    ParseStakeThresholdChanged := fun _ => .ok ()
    ParsePoolScannerUpdated := fun _ => .ok ⟨22⟩
    ParseManagedStakeThresholdChanged := fun _ => .ok ()
    ParseTransfer := fun _ => .ok ⟨0, 33, 9⟩
    ParseScannerPoolRegistered := fun _ => .ok ⟨44⟩
    ParseEnabledScannersChanged := fun _ => .ok ()
    ParseScannerNodeVersionUpdated := fun _ => .ok ()
    ParseAgentUpdated := fun _ => .ok ⟨51⟩
    ParseAgentEnabled := fun _ => .ok ⟨51, true⟩
    ParseAgentStakeThresholdChanged := fun _ => .ok ()
    ParseStakeDeposited := fun _ => .ok ⟨2, 7, 100, 9⟩
    ParseWithdrawalInitiated := fun _ => .ok ⟨0, 8⟩
    ParseSlashed := fun _ => .ok ⟨1, 9, 50⟩
    ParseTransferSingle := fun _ => .ok ()
    ParseTransferBatch := fun _ => .ok ⟨40, [1, 2, 3], [10, 20, 30]⟩
    ParseAllocatedStake := fun _ => .ok ()
    ParseLink := fun _ => .ok ()
    ParseAlreadyLinked := fun _ => .ok ()
    ParseUpgraded := fun _ => .ok ⟨99⟩
    IsEnabledScanner := fun _ => .ok false
    GetAgent := fun _ => .ok ⟨true⟩
    GetScannerPoolOwner := fun _ => .ok 77
    RefreshContracts := .ok contracts1
    handler := fun _ => .ok ()
    contractFilter := none }

theorem handleLog_upgrade_refresh_order_witness :
    getTopic le0 = UpgradedTopic ∧
    (handleLog env0 s0 le0).trace.count Effect.refreshContracts = 1 :=
  ⟨rfl,
    (handleLog_upgrade_refresh_order env0 s0 le0 contracts1
      (getAllContractAddrs contracts1.Addresses) ⟨99⟩ rfl rfl rfl rfl).2.1⟩

/-- C3 counterexample: a concrete log whose first topic IS the shared
Upgraded topic is still routed by address (here into the scanner registry
role) after the upgrade is handled successfully — the source `handleLog`
does not return early after a matched upgrade check, so "address-based
routing is performed only if the upgrade check fails to match" is false on
the code. -/
theorem handleLog_routes_after_matched_upgrade :
    getTopic le0 = UpgradedTopic ∧
    Effect.route Role.scannerRegistry ∈ (handleLog env0 s0 le0).trace := by
  constructor
  · rfl
  · decide

/-- C3 (amended): address-based routing is performed exactly when the
upgrade-handling step returns without error — in particular it is still
performed for a log whose first topic is the Upgraded topic once the
upgrade is handled successfully; a non-matching first topic makes the
upgrade step an effect-free success, so such logs are always routed. -/
theorem handleLog_routing_iff_upgrade_ok (env : Env) (s : LState) (le : EthLog) :
    ((handleUpgradeEvent env s le).result = .ok () →
      (handleLog env s le).trace =
        (handleUpgradeEvent env s le).trace ++ (routeLog env s.contracts le).trace) ∧
    (∀ e : Err, (handleUpgradeEvent env s le).result = .error e →
      (handleLog env s le).trace = (handleUpgradeEvent env s le).trace) ∧
    (getTopic le ≠ UpgradedTopic →
      (handleUpgradeEvent env s le).result = .ok () ∧
      (handleUpgradeEvent env s le).trace = []) := by
  refine ⟨?_, ?_, ?_⟩
  · intro h
    rw [handleLog_trace_split env s le, h]
  · intro e h
    rw [handleLog_trace_split env s le, h]
    simp
  · intro h
    unfold handleUpgradeEvent
    rw [if_neg h]
    exact ⟨rfl, rfl⟩

theorem handleLog_routing_iff_upgrade_ok_witness :
    (handleUpgradeEvent env0 s0 le0).result = .ok () ∧
    (handleLog env0 s0 le0).trace =
      (handleUpgradeEvent env0 s0 le0).trace ++ (routeLog env0 s0.contracts le0).trace :=
  ⟨rfl, (handleLog_routing_iff_upgrade_ok env0 s0 le0).1 rfl⟩

/-- C4: a `ScannerEnabled` event on the scanner registry role emits an
enablement message whose flag is the AND of the freshly queried current
state and the event's own flag; an `AgentEnabled` event on the agent
registry role performs no state query and emits the event's flag as-is. -/
theorem scannerEnabled_and_agentEnabled_semantics
    (env : Env) (le : EthLog) (se : ScannerEnabledEvent) (cur : Bool)
    (ae : AgentEnabledEvent) :
    (getTopic le = ScannerEnabledTopic →
      env.ParseScannerEnabled le = .ok se →
      env.IsEnabledScanner (ScannerIDBigIntToHex se.ScannerId) = .ok cur →
      handleScannerRegistryEvent env le =
        ⟨env.handler (.Scanner ⟨se.ScannerId, cur && se.Enabled⟩),
          [.queryIsEnabledScanner (ScannerIDBigIntToHex se.ScannerId),
            .emit (.Scanner ⟨se.ScannerId, cur && se.Enabled⟩)]⟩) ∧
    (getTopic le = AgentEnabledTopic →
      env.ParseAgentEnabled le = .ok ae →
      handleAgentRegistryEvent env le =
        ⟨env.handler (.Agent ae), [.emit (.Agent ae)]⟩) := by
  constructor
  · intro ht hp hq
    simp only [handleScannerRegistryEvent, ht, hp, hq]
    rw [if_neg (by decide)]
    simp
  · intro ht hp
    simp only [handleAgentRegistryEvent, ht, hp]
    rw [if_neg (by decide)]
    simp

/-- A log carrying the ScannerEnabled topic. -/
def leSE : EthLog := ⟨1, [ScannerEnabledTopic]⟩

/-- A log carrying the AgentEnabled topic. -/
def leAE : EthLog := ⟨3, [AgentEnabledTopic]⟩

theorem scannerEnabled_and_agentEnabled_semantics_witness :
    (handleScannerRegistryEvent env0 leSE =
      ⟨env0.handler (.Scanner ⟨21, false && true⟩),
        [.queryIsEnabledScanner (ScannerIDBigIntToHex 21),
          .emit (.Scanner ⟨21, false && true⟩)]⟩) ∧
    (handleAgentRegistryEvent env0 leAE =
      ⟨env0.handler (.Agent ⟨51, true⟩), [.emit (.Agent ⟨51, true⟩)]⟩) :=
  ⟨(scannerEnabled_and_agentEnabled_semantics env0 leSE ⟨21, true⟩ false ⟨51, true⟩).1
      rfl rfl rfl,
    (scannerEnabled_and_agentEnabled_semantics env0 leAE ⟨21, true⟩ false ⟨51, true⟩).2
      rfl rfl⟩

/-- C5: a `Transfer` event on the scanner pool registry role with zero
`from` address (a mint) yields no message and no error; with a non-zero
`from` it yields exactly one ownership-change message. -/
theorem transfer_zero_from_suppressed
    (env : Env) (le : EthLog) (evt : TransferEvent)
    (htopic : getTopic le = TransferTopic)
    (hparse : env.ParseTransfer le = .ok evt) :
    (evt.From = ZeroAddress →
      handleScannerPoolRegistryEvent env le = ⟨.ok (), []⟩) ∧
    (evt.From ≠ ZeroAddress →
      handleScannerPoolRegistryEvent env le =
        ⟨env.handler (.ScannerPoolFromTransfer evt),
          [.emit (.ScannerPoolFromTransfer evt)]⟩) := by
  constructor
  · intro hz
    simp only [handleScannerPoolRegistryEvent, htopic, hparse]
    rw [if_neg (by decide), if_neg (by decide)]
    simp [hz]
  · intro hz
    simp only [handleScannerPoolRegistryEvent, htopic, hparse]
    rw [if_neg (by decide), if_neg (by decide)]
    simp [hz]

/-- A log carrying the pool registry Transfer topic. -/
def leTR : EthLog := ⟨6, [TransferTopic]⟩

/-- Environment whose Transfer decoder reports a non-zero `from`. -/
def envC5 : Env := { env0 with ParseTransfer := fun _ => .ok ⟨8, 33, 9⟩ }

theorem transfer_zero_from_suppressed_witness :
    (handleScannerPoolRegistryEvent env0 leTR = ⟨.ok (), []⟩) ∧
    (handleScannerPoolRegistryEvent envC5 leTR =
      ⟨envC5.handler (.ScannerPoolFromTransfer ⟨8, 33, 9⟩),
        [.emit (.ScannerPoolFromTransfer ⟨8, 33, 9⟩)]⟩) :=
  ⟨(transfer_zero_from_suppressed env0 leTR ⟨0, 33, 9⟩ rfl rfl).1 rfl,
    (transfer_zero_from_suppressed envC5 leTR ⟨8, 33, 9⟩ rfl rfl).2 (by decide)⟩

/-- C6: `StakeDeposited`, `WithdrawalInitiated` and `Slashed` all feed the
common `(subjectType, subject, changeType, account, value)` tuple into the
subject-type re-dispatch, which encodes the subject identifier as hex for
scanner subjects, hex for agent subjects, and the decimal string for
scanner-pool subjects, and silently drops an unrecognized subject type
without error. -/
theorem stake_subject_identifier_encoding
    (env : Env) (le : EthLog)
    (d : StakeDepositedEvent) (w : WithdrawalInitiatedEvent) (sl : SlashedEvent)
    (st subj : Nat) (ct : String) (acct : Nat) (v : Option Nat) :
    (getTopic le = StakeDepositedTopic → env.ParseStakeDeposited le = .ok d →
      handleFortaStakingEvent env le =
        stakeMessageDispatch env d.SubjectType d.Subject ChangeTypeDeposit
          d.Account (some d.Amount)) ∧
    (getTopic le = WithdrawalInitiatedTopic → env.ParseWithdrawalInitiated le = .ok w →
      handleFortaStakingEvent env le =
        stakeMessageDispatch env w.SubjectType w.Subject ChangeTypeWithdrawal 0 none) ∧
    (getTopic le = SlashedTopic → env.ParseSlashed le = .ok sl →
      handleFortaStakingEvent env le =
        stakeMessageDispatch env sl.SubjectType sl.Subject ChangeTypeSlash 0
          (some sl.Value)) ∧
    (stakeMessageDispatch env SubjectTypeScanner subj ct acct v =
      ⟨env.handler (.ScannerStake ct acct (ScannerIDBigIntToHex subj) v),
        [.emit (.ScannerStake ct acct (ScannerIDBigIntToHex subj) v)]⟩) ∧
    (stakeMessageDispatch env SubjectTypeAgent subj ct acct v =
      ⟨env.handler (.AgentStake ct acct (AgentBigIntToHex subj) v),
        [.emit (.AgentStake ct acct (AgentBigIntToHex subj) v)]⟩) ∧
    (stakeMessageDispatch env SubjectTypeScannerPool subj ct acct v =
      ⟨env.handler (.ScannerPoolStake ct acct (bigIntDecimalString subj) v),
        [.emit (.ScannerPoolStake ct acct (bigIntDecimalString subj) v)]⟩) ∧
    (st ≠ SubjectTypeScanner → st ≠ SubjectTypeAgent → st ≠ SubjectTypeScannerPool →
      stakeMessageDispatch env st subj ct acct v = ⟨.ok (), []⟩) := by
  refine ⟨?_, ?_, ?_, ?_, ?_, ?_, ?_⟩
  · intro ht hp
    simp only [handleFortaStakingEvent, ht, hp]
    simp
  · intro ht hp
    simp only [handleFortaStakingEvent, ht, hp]
    rw [if_neg (by decide)]
    simp
  · intro ht hp
    simp only [handleFortaStakingEvent, ht, hp]
    rw [if_neg (by decide), if_neg (by decide)]
    simp
  · simp only [stakeMessageDispatch]
    simp
  · simp only [stakeMessageDispatch]
    rw [if_neg (by decide)]
    simp
  · simp only [stakeMessageDispatch]
    rw [if_neg (by decide), if_neg (by decide)]
    simp
  · intro h1 h2 h3
    simp only [stakeMessageDispatch]
    rw [if_neg h1, if_neg h2, if_neg h3]

/-- A log carrying the StakeDeposited topic. -/
def leSD : EthLog := ⟨5, [StakeDepositedTopic]⟩

theorem stake_subject_identifier_encoding_witness :
    (handleFortaStakingEvent env0 leSD =
      stakeMessageDispatch env0 2 7 ChangeTypeDeposit 9 (some 100)) ∧
    (stakeMessageDispatch env0 SubjectTypeScannerPool 7 ChangeTypeDeposit 9 (some 100) =
      ⟨env0.handler (.ScannerPoolStake ChangeTypeDeposit 9 (bigIntDecimalString 7) (some 100)),
        [.emit (.ScannerPoolStake ChangeTypeDeposit 9 (bigIntDecimalString 7) (some 100))]⟩) ∧
    bigIntDecimalString 7 = "7" ∧
    (stakeMessageDispatch env0 5 7 ChangeTypeDeposit 9 (some 100) = ⟨.ok (), []⟩) :=
  ⟨(stake_subject_identifier_encoding env0 leSD ⟨2, 7, 100, 9⟩ ⟨0, 8⟩ ⟨1, 9, 50⟩
      5 7 ChangeTypeDeposit 9 (some 100)).1 rfl rfl,
    (stake_subject_identifier_encoding env0 leSD ⟨2, 7, 100, 9⟩ ⟨0, 8⟩ ⟨1, 9, 50⟩
      5 7 ChangeTypeDeposit 9 (some 100)).2.2.2.2.2.1,
    rfl,
    (stake_subject_identifier_encoding env0 leSD ⟨2, 7, 100, 9⟩ ⟨0, 8⟩ ⟨1, 9, 50⟩
      5 7 ChangeTypeDeposit 9 (some 100)).2.2.2.2.2.2 (by decide) (by decide) (by decide)⟩

lemma deliverAll_ok (env : Env) (ms : List Msg)
    (h : ∀ m ∈ ms, env.handler m = .ok ()) :
    deliverAll env ms = ⟨.ok (), ms.map .emit⟩ := by
  induction ms with
  | nil => rfl
  | cons m rest ih =>
    unfold deliverAll
    rw [h m (List.mem_cons_self m rest),
      ih (fun x hx => h x (List.mem_cons_of_mem m hx))]
    simp

lemma deliverAll_err (env : Env) (ms : List Msg) (j : Nat) (e : Err)
    (hj : j < ms.length)
    (hok : ∀ m ∈ ms.take j, env.handler m = .ok ())
    (herr : env.handler (ms.getD j .TransferSharesSingle) = .error e) :
    deliverAll env ms = ⟨.error e, (ms.take (j + 1)).map .emit⟩ := by
  induction ms generalizing j with
  | nil => simp at hj
  | cons m rest ih =>
    cases j with
    | zero =>
      simp only [List.getD_cons_zero] at herr
      unfold deliverAll
      rw [herr]
      simp
    | succ j =>
      have hm : env.handler m = .ok () := by
        apply hok
        rw [List.take_succ_cons]
        exact List.mem_cons_self m _
      unfold deliverAll
      rw [hm,
        ih j (by simp only [List.length_cons] at hj; omega)
          (fun x hx => hok x (by rw [List.take_succ_cons]; exact List.mem_cons_of_mem m hx))
          (by simpa only [List.getD_cons_succ] using herr)]
      simp

/-- C7: a `TransferBatch` event with K transferred entries yields exactly K
share-transfer messages, delivered to the sink one at a time in entry
order; if delivering the j-th fails, that error is returned and no later
message is attempted (the trace stops at the j-th emission). -/
theorem transferBatch_delivery
    (env : Env) (le : EthLog) (evt : TransferBatchEvent) (ms : List Msg)
    (htopic : getTopic le = TransferBatchTopic)
    (hparse : env.ParseTransferBatch le = .ok evt)
    (hmsgs : TransferSharesMessagesFromBatch evt = .ok ms) :
    ms.length = min evt.Ids.length evt.Values.length ∧
    ((∀ m ∈ ms, env.handler m = .ok ()) →
      handleFortaStakingEvent env le = ⟨.ok (), ms.map .emit⟩) ∧
    (∀ (j : Nat) (e : Err), j < ms.length →
      (∀ m ∈ ms.take j, env.handler m = .ok ()) →
      env.handler (ms.getD j .TransferSharesSingle) = .error e →
      handleFortaStakingEvent env le = ⟨.error e, (ms.take (j + 1)).map .emit⟩) := by
  have hms : handleFortaStakingEvent env le = deliverAll env ms := by
    simp only [handleFortaStakingEvent, htopic, hparse, hmsgs]
    rw [if_neg (by decide), if_neg (by decide), if_neg (by decide), if_neg (by decide)]
    simp
  have hlen : ms.length = min evt.Ids.length evt.Values.length := by
    have hzip : ms = (evt.Ids.zip evt.Values).map fun p => .TransferShares evt.To p.1 p.2 := by
      simpa [TransferSharesMessagesFromBatch] using hmsgs.symm
    rw [hzip]
    simp [List.length_zip]
  refine ⟨hlen, ?_, ?_⟩
  · intro h
    rw [hms, deliverAll_ok env ms h]
  · intro j e hj hok herr
    rw [hms, deliverAll_err env ms j e hj hok herr]

/-- A log carrying the TransferBatch topic. -/
def leTB : EthLog := ⟨5, [TransferBatchTopic]⟩

/-- Environment whose sink rejects the share-transfer message with id 2
(the second of the three batch entries decoded by `env0`). -/
def envC7 : Env :=
  { env0 with
    handler := fun m =>
      match m with
      | .TransferShares _ 2 _ => .error ⟨"sink"⟩
      | _ => .ok () }

theorem transferBatch_delivery_witness :
    handleFortaStakingEvent envC7 leTB =
      ⟨.error ⟨"sink"⟩,
        [.emit (.TransferShares 40 1 10), .emit (.TransferShares 40 2 20)]⟩ := by
  have h := (transferBatch_delivery envC7 leTB ⟨40, [1, 2, 3], [10, 20, 30]⟩
      [.TransferShares 40 1 10, .TransferShares 40 2 20, .TransferShares 40 3 30]
      rfl rfl rfl).2.2 1 ⟨"sink"⟩ (by simp)
      (by intro m hm; simp at hm; subst hm; rfl) rfl
  simpa using h

lemma route_not_mem_withRoute {r r2 : Role} {h : HRes} (hne : r ≠ r2)
    (hb : h.trace.all isBenign = true) :
    Effect.route r ∉ (withRoute r2 h).trace := by
  simp only [withRoute, List.mem_cons, not_or]
  constructor
  · simp only [Effect.route.injEq]
    exact hne
  · exact not_mem_of_all (all_imp (fun x hx => benign_notRoute hx) hb) rfl

lemma routeLog_no_route_absent (env : Env) (c : Contracts) (le : EthLog) :
    (c.Addresses.ScannerPoolRegistry = none →
      Effect.route .scannerPoolRegistry ∉ (routeLog env c le).trace) ∧
    (c.Addresses.StakeAllocator = none →
      Effect.route .stakeAllocator ∉ (routeLog env c le).trace) := by
  constructor <;>
    · intro hnone
      unfold routeLog
      repeat' split
      all_goals first
        | exact route_not_mem_withRoute (by decide) (handleScannerRegistryEvent_benign env le)
        | exact route_not_mem_withRoute (by decide) (handleScannerVersionEvent_benign env le)
        | exact route_not_mem_withRoute (by decide) (handleAgentRegistryEvent_benign env le)
        | exact route_not_mem_withRoute (by decide) (handleDispatchEvent_benign env le)
        | exact route_not_mem_withRoute (by decide) (handleFortaStakingEvent_benign env le)
        | exact route_not_mem_withRoute (by decide)
            (handleScannerPoolRegistryEvent_benign env le)
        | exact route_not_mem_withRoute (by decide) (handleStakeAllocatorEvent_benign env le)
        | exact List.not_mem_nil _
        | simp_all [optAddrMatches]

/-- C9: routing never faults on an absent optional role: when the scanner
pool registry (resp. stake allocator) address is nil, no log is routed into
that role — the nil-guarded comparison simply does not match, for any log
and any registry state. -/
theorem absent_roles_skipped (env : Env) (s : LState) (le : EthLog) :
    (s.contracts.Addresses.ScannerPoolRegistry = none →
      Effect.route .scannerPoolRegistry ∉ (handleLog env s le).trace) ∧
    (s.contracts.Addresses.StakeAllocator = none →
      Effect.route .stakeAllocator ∉ (handleLog env s le).trace) := by
  have hsplit := handleLog_trace_split env s le
  have hup := handleUpgradeEvent_notRoute env s le
  constructor
  · intro hnone hmem
    rw [hsplit] at hmem
    rcases List.mem_append.mp hmem with h | h
    · exact not_mem_of_all hup
        (show notRoute (Effect.route Role.scannerPoolRegistry) = false from rfl) h
    · cases hres : (handleUpgradeEvent env s le).result with
      | error e0 =>
        rw [hres] at h
        exact absurd h (List.not_mem_nil _)
      | ok u =>
        rw [hres] at h
        exact (routeLog_no_route_absent env s.contracts le).1 hnone h
  · intro hnone hmem
    rw [hsplit] at hmem
    rcases List.mem_append.mp hmem with h | h
    · exact not_mem_of_all hup
        (show notRoute (Effect.route Role.stakeAllocator) = false from rfl) h
    · cases hres : (handleUpgradeEvent env s le).result with
      | error e0 =>
        rw [hres] at h
        exact absurd h (List.not_mem_nil _)
      | ok u =>
        rw [hres] at h
        exact (routeLog_no_route_absent env s.contracts le).2 hnone h

/-- A contract set in which both optional roles are absent. -/
def contracts9 : Contracts := ⟨⟨1, 2, 3, 4, 5, none, none⟩⟩

/-- Listener state with both optional roles absent. -/
def s9 : LState := ⟨contracts9⟩

/-- A log addressed at what used to be the pool registry address. -/
def le9 : EthLog := ⟨6, [TransferTopic]⟩

theorem absent_roles_skipped_witness :
    Effect.route Role.scannerPoolRegistry ∉ (handleLog env0 s9 le9).trace ∧
    Effect.route Role.stakeAllocator ∉ (handleLog env0 s9 le9).trace :=
  ⟨(absent_roles_skipped env0 s9 le9).1 rfl, (absent_roles_skipped env0 s9 le9).2 rfl⟩

/-- C8: listener construction fails (the `panic("empty filter")` in
`setLogFilterAddrs`) exactly when the resolved subscribed-address set is
empty; any configuration resolving at least one address constructs
successfully (for this reason), and the nil-filter default subscribes all
known role addresses and never fails. -/
theorem construction_empty_filter_fails :
    (∀ (f : Option ContractFilter) (rc : RegistryContracts),
      NewListenerWithClients f rc = .error ⟨"empty filter"⟩ ↔
        resolveFilterAddrs f rc = []) ∧
    (∀ (f : Option ContractFilter) (rc : RegistryContracts),
      resolveFilterAddrs f rc ≠ [] →
      NewListenerWithClients f rc = .ok (resolveFilterAddrs f rc)) ∧
    (∀ rc : RegistryContracts,
      NewListenerWithClients
        (some ⟨false, false, false, false, false, false, false⟩) rc =
          .error ⟨"empty filter"⟩) ∧
    (∀ rc : RegistryContracts,
      NewListenerWithClients none rc = .ok (getAllContractAddrs rc)) := by
  refine ⟨?_, ?_, ?_, ?_⟩
  · intro f rc
    simp only [NewListenerWithClients, setLogFilterAddrs]
    rcases hres : resolveFilterAddrs f rc with _ | ⟨a, as⟩
    · simp [hres]
    · simp [hres]
  · intro f rc h
    rcases hres : resolveFilterAddrs f rc with _ | ⟨a, as⟩
    · exact absurd hres h
    · simp [NewListenerWithClients, setLogFilterAddrs, hres]
  · intro rc
    rfl
  · intro rc
    rfl

theorem construction_empty_filter_fails_witness :
    resolveFilterAddrs (some ⟨true, false, false, false, false, false, false⟩)
        contracts0.Addresses ≠ [] ∧
    NewListenerWithClients (some ⟨true, false, false, false, false, false, false⟩)
        contracts0.Addresses =
      .ok (resolveFilterAddrs (some ⟨true, false, false, false, false, false, false⟩)
        contracts0.Addresses) :=
  ⟨by decide, construction_empty_filter_fails.2.1 _ _ (by decide)⟩

end Forta
